import Mathlib

/-!
Verification of the Voice-AI-Voice Streamlit application (src/app.py).

The program is a three-stage orchestrator: an uploaded (or recorded) audio
clip is sent to a speech-to-text endpoint, the transcript to a
text-generation endpoint, and the reply to a text-to-speech endpoint whose
response bytes are played back.  This file gives a shallow embedding of the
data model and of the functions call_stt_api, call_llm_api, call_tts_api,
the process-button handler and the diagnostic checkbox, and proves the
specified properties about them.
-/

namespace VoiceApp

/-- JSON values, as produced by resp.json() in the source.  Objects keep
their bindings as an association list. -/
inductive Json where
  | null : Json
  | bool : Bool → Json
  | num : Int → Json
  | str : String → Json
  | arr : List Json → Json
  | obj : List (String × Json) → Json

/-- Python truthiness of a JSON value, as used by the or-chains and
if-tests of the source (None, False, 0, empty string, empty list and empty
dict are falsy). -/
def Json.truthy : Json → Bool
  | .null => false
  | .bool b => b
  | .num n => n != 0
  | .str s => s != ""
  | .arr a => !a.isEmpty
  | .obj o => !o.isEmpty

/-- Lookup of a key in a JSON object: some value when the key is bound,
none otherwise (and none on non-objects; the source only applies dict
lookups to dict responses). -/
def Json.lookup : Json → String → Option Json
  | .obj fields, k => (fields.find? (fun p => p.1 == k)).map (fun p => p.2)
  | _, _ => none

/-- Python dict.get k default. -/
def Json.getD (j : Json) (k : String) (d : Json) : Json :=
  (j.lookup k).getD d

/-- Python `a or b` on JSON values: a when a is truthy, b otherwise. -/
def pyOr (a b : Json) : Json :=
  if a.truthy then a else b

/-- The st.secrets store: a key-value map of strings.  The source reads it
with st.secrets.get, which returns None for absent keys. -/
def Secrets : Type := List (String × String)

/-- st.secrets.get k (with default None): some value when present, none
otherwise. -/
def Secrets.get (s : Secrets) (k : String) : Option String :=
  (s.find? (fun p => p.1 == k)).map (fun p => p.2)

/-- Python truthiness of an optional string, as tested by the
`if not STT_ENDPOINT or not STT_KEY` checks (None and the empty string are
falsy). -/
def truthyS : Option String → Bool
  | none => false
  | some s => s != ""

/-- The literal string that all three stage functions pass to
st.secrets.get as the lookup key for the endpoint.  The source writes the
endpoint URL itself as the key of the lookup, in call_stt_api,
call_llm_api and call_tts_api alike. -/
def secretEndpointKey : String := "https://eastasia.api.cognitive.microsoft.com/"

/-- The literal string that all three stage functions pass to
st.secrets.get as the lookup key for the credential.  As with the
endpoint, the source writes the credential value itself as the lookup key,
identically in all three stage functions. -/
def secretCredentialKey : String :=
  "1f9hcUtjhvtdUv2nhtebXYAQ2SaWu8MjEyrZ0hH37jw1n4ETfgXVJQQJ99BKAC3pKaRXJ3w3AAAYACOG3AV4"

/-- Body of an HTTP request issued by a stage: either the multipart file
upload of the STT stage or a JSON payload (LLM and TTS stages). -/
inductive RequestBody where
  | multipartFile : List Nat → RequestBody
  | jsonBody : Json → RequestBody

/-- An HTTP request as issued by requests.post in the source: target URL,
Authorization header value, and body. -/
structure HttpRequest where
  url : String
  auth : String
  body : RequestBody

/-- An HTTP response: status code, raw content bytes (resp.content), the
text view used in error messages (resp.text) and the parsed JSON view
(resp.json) used on success. -/
structure HttpResponse where
  status : Nat
  content : List Nat
  text : String
  json : Json

/-- The network environment: what response each request receives.  A
pipeline run is deterministic relative to this oracle. -/
def Net : Type := HttpRequest → HttpResponse

/-- Messages surfaced to the user through the st.* UI calls. -/
inductive UiMsg where
  | info : String → UiMsg
  | infoJson : Json → UiMsg
  | error : String → UiMsg
  | warning : String → UiMsg
  | markdown : String → UiMsg
  | successJson : Json → UiMsg
  | audioPlay : List Nat → UiMsg
  | balloons : UiMsg

/-- Result of running one stage function: the UI messages it emitted, the
HTTP requests it issued, and its return value. -/
structure StageRun (α : Type) where
  msgs : List UiMsg
  reqs : List HttpRequest
  result : α

/-- Transcript extraction of call_stt_api on a successful response:
data.get "text" or data.get "transcript" or data.get "result" or the
empty string, with Python or semantics (first truthy value wins). -/
def sttExtract (data : Json) : Json :=
  pyOr (data.getD "text" .null)
    (pyOr (data.getD "transcript" .null)
      (pyOr (data.getD "result" .null) (.str "")))

/-- Reply extraction of call_llm_api on a successful response.  The source
takes the structured branch when the key choices is present and its list
is non-empty, returning choices[0].get "text" or
choices[0].get "message" (default empty dict) .get "content" (default
empty string); otherwise it returns data.get "response" or
data.get "text" or the empty string.  (The source assumes a dict response
with a list under choices; other shapes raise in Python and are outside
the claims.) -/
def llmExtract (data : Json) : Json :=
  match data.lookup "choices" with
  | some (.arr (c :: _)) =>
      pyOr (c.getD "text" .null) ((c.getD "message" (.obj [])).getD "content" (.str ""))
  | _ =>
      pyOr (data.getD "response" .null) (pyOr (data.getD "text" .null) (.str ""))

/-- The request built by call_stt_api when the configuration check passes:
POST to the configured endpoint with a Bearer credential header and the
audio bytes as the multipart file field. -/
def sttReq (secrets : Secrets) (audio : List Nat) : HttpRequest :=
  { url := (secrets.get secretEndpointKey).getD ""
    auth := "Bearer " ++ (secrets.get secretCredentialKey).getD ""
    body := .multipartFile audio }

/-- The request built by call_llm_api: JSON payload with the prompt set to
the user text and max_tokens set to 512. -/
def llmReq (secrets : Secrets) (userText : Json) : HttpRequest :=
  { url := (secrets.get secretEndpointKey).getD ""
    auth := "Bearer " ++ (secrets.get secretCredentialKey).getD ""
    body := .jsonBody (.obj [("prompt", userText), ("max_tokens", .num 512)]) }

/-- The request built by call_tts_api: JSON payload with the reply text
and the voice from st.secrets.get "TTS_VOICE" with default "default". -/
def ttsReq (secrets : Secrets) (reply : Json) : HttpRequest :=
  { url := (secrets.get secretEndpointKey).getD ""
    auth := "Bearer " ++ (secrets.get secretCredentialKey).getD ""
    body := .jsonBody (.obj [("text", reply),
                             ("voice", .str ((secrets.get "TTS_VOICE").getD "default"))]) }

/-- Embedding of call_stt_api: reports progress, checks the endpoint and
credential lookups, and either aborts with a configuration error (no
request issued, empty-string result), aborts with a remote-call error (one
request issued, empty-string result), or returns the extracted transcript
(one request issued). -/
def call_stt_api (secrets : Secrets) (net : Net) (audio : List Nat) : StageRun Json :=
  if !truthyS (secrets.get secretEndpointKey) || !truthyS (secrets.get secretCredentialKey) then
    { msgs := [.info "Sending audio to STT API...",
               .error "STT endpoint/key not configured. Check .streamlit/secrets.toml."]
      reqs := []
      result := .str "" }
  else
    let req := sttReq secrets audio
    let resp := net req
    if resp.status != 200 then
      { msgs := [.info "Sending audio to STT API...",
                 .error ("STT API error: " ++ toString resp.status ++ " " ++ resp.text)]
        reqs := [req]
        result := .str "" }
    else
      { msgs := [.info "Sending audio to STT API..."]
        reqs := [req]
        result := sttExtract resp.json }

/-- Embedding of call_llm_api, with the same structure as call_stt_api:
configuration check, single POST, status check, then reply extraction. -/
def call_llm_api (secrets : Secrets) (net : Net) (userText : Json) : StageRun Json :=
  if !truthyS (secrets.get secretEndpointKey) || !truthyS (secrets.get secretCredentialKey) then
    { msgs := [.info "Sending text to LLM...",
               .error "LLM endpoint/key not configured. Check .streamlit/secrets.toml."]
      reqs := []
      result := .str "" }
  else
    let req := llmReq secrets userText
    let resp := net req
    if resp.status != 200 then
      { msgs := [.info "Sending text to LLM...",
                 .error ("LLM API error: " ++ toString resp.status ++ " " ++ resp.text)]
        reqs := [req]
        result := .str "" }
    else
      { msgs := [.info "Sending text to LLM..."]
        reqs := [req]
        result := llmExtract resp.json }

/-- Embedding of call_tts_api: on success the source writes resp.content
to the output file and returns its path, so the stage result is the raw
response bytes (some content); on configuration or remote-call failure the
source returns None (none here). -/
def call_tts_api (secrets : Secrets) (net : Net) (reply : Json) : StageRun (Option (List Nat)) :=
  if !truthyS (secrets.get secretEndpointKey) || !truthyS (secrets.get secretCredentialKey) then
    { msgs := [.info "Requesting TTS audio...",
               .error "TTS endpoint/key not configured. Check .streamlit/secrets.toml."]
      reqs := []
      result := none }
  else
    let req := ttsReq secrets reply
    let resp := net req
    if resp.status != 200 then
      { msgs := [.info "Requesting TTS audio...",
                 .error ("TTS API error: " ++ toString resp.status ++ " " ++ resp.text)]
        reqs := [req]
        result := none }
    else
      { msgs := [.info "Requesting TTS audio..."]
        reqs := [req]
        result := some resp.content }

/-- The linear pipeline states of the specification.  Done is reached only
on the full-success branch (st.audio plus st.balloons); every error branch
of the handler is Aborted; a click with no audio leaves the run at Idle. -/
inductive PipeState where
  | Idle : PipeState
  | Done : PipeState
  | Aborted : PipeState

/-- Outcome of one click of the process button: final state, the UI
messages in order, the HTTP requests issued in order, and the final
synthesized-audio artifact handed to playback (none unless Done). -/
structure RunResult where
  state : PipeState
  msgs : List UiMsg
  reqs : List HttpRequest
  artifact : Option (List Nat)

/-- Embedding of the process-button handler: with no uploaded file it only
warns; otherwise it runs call_stt_api, aborts on a falsy transcript,
surfaces the transcript, runs call_llm_api, aborts on a falsy reply,
surfaces the reply, runs call_tts_api, and either plays the returned audio
(Done) or reports the TTS failure. -/
def processButton (secrets : Secrets) (net : Net) (uploaded : Option (List Nat)) : RunResult :=
  match uploaded with
  | none =>
      { state := .Idle
        msgs := [.warning "No audio available. Use the recorder (top) or upload a file."]
        reqs := []
        artifact := none }
  | some audio =>
      let r1 := call_stt_api secrets net audio
      if !r1.result.truthy then
        { state := .Aborted
          msgs := r1.msgs ++ [.error "No transcription returned."]
          reqs := r1.reqs
          artifact := none }
      else
        let r2 := call_llm_api secrets net r1.result
        let msgs2 := r1.msgs ++ [.markdown "**You said:**", .infoJson r1.result] ++ r2.msgs
        if !r2.result.truthy then
          { state := .Aborted
            msgs := msgs2 ++ [.error "LLM didn\x27t return a reply."]
            reqs := r1.reqs ++ r2.reqs
            artifact := none }
        else
          let r3 := call_tts_api secrets net r2.result
          let msgs3 := msgs2 ++ [.markdown "**AI reply:**", .successJson r2.result] ++ r3.msgs
          match r3.result with
          | some bytes =>
              { state := .Done
                msgs := msgs3 ++ [.audioPlay bytes, .balloons]
                reqs := r1.reqs ++ r2.reqs ++ r3.reqs
                artifact := some bytes }
          | none =>
              { state := .Aborted
                msgs := msgs3 ++ [.error "TTS failed."]
                reqs := r1.reqs ++ r2.reqs ++ r3.reqs
                artifact := none }

/-- The three pipeline stages. -/
inductive Stage where
  | stt : Stage
  | llm : Stage
  | tts : Stage

/-- The configuration check performed at the top of call_stt_api: both
lookups must be present and non-empty. -/
def sttConfigured (secrets : Secrets) : Bool :=
  truthyS (secrets.get secretEndpointKey) && truthyS (secrets.get secretCredentialKey)

/-- The configuration check performed at the top of call_llm_api.  The
source repeats the same two lookups as call_stt_api. -/
def llmConfigured (secrets : Secrets) : Bool :=
  truthyS (secrets.get secretEndpointKey) && truthyS (secrets.get secretCredentialKey)

/-- The configuration check performed at the top of call_tts_api.  The
source repeats the same two lookups as call_stt_api. -/
def ttsConfigured (secrets : Secrets) : Bool :=
  truthyS (secrets.get secretEndpointKey) && truthyS (secrets.get secretCredentialKey)

/-- The per-stage configuration check, dispatching to the check each stage
function performs. -/
def stageConfigured : Stage → Secrets → Bool
  | .stt, s => sttConfigured s
  | .llm, s => llmConfigured s
  | .tts, s => ttsConfigured s

/-- All three stage checks at once: the fully-configured precondition of
the success-run property. -/
def fullyConfigured (secrets : Secrets) : Bool :=
  sttConfigured secrets && llmConfigured secrets && ttsConfigured secrets

/-- The booleans written by the diagnostic checkbox, in order STT, LLM,
TTS.  The source computes bool (st.secrets.get "STT_ENDPOINT") and
likewise for "LLM_ENDPOINT" and "TTS_ENDPOINT": these lookup keys differ
from the ones the stage functions consult. -/
def showConfiguredAPIs (secrets : Secrets) : Bool × Bool × Bool :=
  (truthyS (secrets.get "STT_ENDPOINT"),
   truthyS (secrets.get "LLM_ENDPOINT"),
   truthyS (secrets.get "TTS_ENDPOINT"))

/-- The response the STT stage receives in a run over the given secrets,
network and audio. -/
def sttRespOf (secrets : Secrets) (net : Net) (audio : List Nat) : HttpResponse :=
  net (sttReq secrets audio)

/-- The transcript the STT stage extracts in a successful run. -/
def transcriptOf (secrets : Secrets) (net : Net) (audio : List Nat) : Json :=
  sttExtract (sttRespOf secrets net audio).json

/-- The response the LLM stage receives in a run where the STT stage
succeeded. -/
def llmRespOf (secrets : Secrets) (net : Net) (audio : List Nat) : HttpResponse :=
  net (llmReq secrets (transcriptOf secrets net audio))

/-- The reply the LLM stage extracts in a successful run. -/
def replyOf (secrets : Secrets) (net : Net) (audio : List Nat) : Json :=
  llmExtract (llmRespOf secrets net audio).json

/-- The response the TTS stage receives in a run where the first two
stages succeeded. -/
def ttsRespOf (secrets : Secrets) (net : Net) (audio : List Nat) : HttpResponse :=
  net (ttsReq secrets (replyOf secrets net audio))

/-- Page state visible to the script on a rerun: the audio captured by the
embedded recorder (which never reaches the Python side, as the source
comments concede) and the file supplied through the uploader. -/
structure PageState where
  recorderAudio : Option (List Nat)
  uploaded : Option (List Nat)

/-- A click of the process button over a page state: the handler consumes
only the uploaded file. -/
def processClick (secrets : Secrets) (net : Net) (page : PageState) : RunResult :=
  processButton secrets net page.uploaded

/-- The ambient world a stage call runs in: the configuration store and
network, plus state a stage must not depend on (page state and the
diagnostic toggle). -/
structure World where
  secrets : Secrets
  net : Net
  page : PageState
  diagChecked : Bool

/-- The Transcribe stage as invoked in a world. -/
def sttStage (w : World) (audio : List Nat) : StageRun Json :=
  call_stt_api w.secrets w.net audio

/-- The Generate stage as invoked in a world. -/
def llmStage (w : World) (userText : Json) : StageRun Json :=
  call_llm_api w.secrets w.net userText

/-- The Synthesize stage as invoked in a world. -/
def ttsStage (w : World) (reply : Json) : StageRun (Option (List Nat)) :=
  call_tts_api w.secrets w.net reply

/-- First truthy value among the given fields of a JSON object, else the
empty string: the ordered extraction-rule reading of the or-chains. -/
def firstTruthy : List String → Json → Json
  | [], _ => .str ""
  | f :: rest, data =>
      let v := data.getD f .null
      if v.truthy then v else firstTruthy rest data

/-- The accepted transcript field names of call_stt_api, in priority
order. -/
def sttFields : List String := ["text", "transcript", "result"]

/-- The structured part of the reply extraction, applied to the first
element of a non-empty choices list. -/
def choiceExtract (c : Json) : Json :=
  pyOr (c.getD "text" .null) ((c.getD "message" (.obj [])).getD "content" (.str ""))

/-- The flat fallback part of the reply extraction: response, then text,
then the empty string. -/
def flatExtract (data : Json) : Json :=
  pyOr (data.getD "response" .null) (pyOr (data.getD "text" .null) (.str ""))

/-- Formalisation of the words of claim C4, for comparison with the code:
the accepted field names are looked up in priority order and the first
match (the earliest field present in the object) wins, its value being
returned as is. -/
def sttExtractClaim (data : Json) : Json :=
  match data.lookup "text" with
  | some v => v
  | none =>
      match data.lookup "transcript" with
      | some v => v
      | none =>
          match data.lookup "result" with
          | some v => v
          | none => .str ""

/-- Formalisation of the words of claim C5, for comparison with the code:
the choices extraction is tried first, and whenever it yields no value
(nothing truthy), extraction falls back to the flat response and text
fields. -/
def llmExtractClaim (data : Json) : Json :=
  let cv : Json :=
    match data.lookup "choices" with
    | some (.arr (c :: _)) =>
        pyOr (c.getD "text" .null) ((c.getD "message" (.obj [])).getD "content" (.str ""))
    | _ => .null
  if cv.truthy then cv
  else pyOr (data.getD "response" .null) (pyOr (data.getD "text" .null) (.str ""))

/-- Example secrets store under which every stage configuration check
passes: both literal lookup keys are bound to non-empty strings. -/
def sOK : Secrets :=
  [(secretEndpointKey, "https://stt.example"), (secretCredentialKey, "key123")]

/-- Example network oracle: every request succeeds with a fixed JSON body
whose text field yields a transcript and whose response field yields a
reply, and with fixed content bytes. -/
def netOK : Net := fun _ =>
  { status := 200
    content := [7, 7]
    text := ""
    json := Json.obj [("text", .str "hi"), ("response", .str "ok")] }

/-- Example network oracle that refuses every request with status 500. -/
def net500 : Net := fun _ =>
  { status := 500, content := [], text := "boom", json := .null }

/-- Example network oracle that succeeds with an empty JSON object, so
every transcript field is absent. -/
def netEmpty : Net := fun _ =>
  { status := 200, content := [], text := "", json := Json.obj [] }

/-- Example secrets store holding exactly the three entries the diagnostic
checkbox looks up.  The stage functions consult different keys, so none of
the stage configuration checks passes under this store. -/
def sDiag : Secrets :=
  [("STT_ENDPOINT", "https://stt.example"),
   ("LLM_ENDPOINT", "https://llm.example"),
   ("TTS_ENDPOINT", "https://tts.example")]

lemma truthy_str_empty : Json.truthy (.str "") = false := rfl

lemma call_stt_api_config_missing (secrets : Secrets) (net : Net) (audio : List Nat)
    (h : sttConfigured secrets = false) :
    call_stt_api secrets net audio =
      { msgs := [.info "Sending audio to STT API...",
                 .error "STT endpoint/key not configured. Check .streamlit/secrets.toml."]
        reqs := []
        result := .str "" } := by
  have hcond : (!truthyS (secrets.get secretEndpointKey)
      || !truthyS (secrets.get secretCredentialKey)) = true := by
    rw [← Bool.not_and]
    unfold sttConfigured at h
    rw [h]
    rfl
  unfold call_stt_api
  rw [hcond]
  simp

lemma call_stt_api_http_error (secrets : Secrets) (net : Net) (audio : List Nat)
    (hc : sttConfigured secrets = true)
    (hs : (net (sttReq secrets audio)).status ≠ 200) :
    call_stt_api secrets net audio =
      { msgs := [.info "Sending audio to STT API...",
                 .error ("STT API error: " ++ toString (net (sttReq secrets audio)).status
                   ++ " " ++ (net (sttReq secrets audio)).text)]
        reqs := [sttReq secrets audio]
        result := .str "" } := by
  unfold sttConfigured at hc
  rw [Bool.and_eq_true] at hc
  unfold call_stt_api
  rw [hc.1, hc.2]
  simp [hs]

lemma call_stt_api_ok (secrets : Secrets) (net : Net) (audio : List Nat)
    (hc : sttConfigured secrets = true)
    (hs : (net (sttReq secrets audio)).status = 200) :
    call_stt_api secrets net audio =
      { msgs := [.info "Sending audio to STT API..."]
        reqs := [sttReq secrets audio]
        result := sttExtract (net (sttReq secrets audio)).json } := by
  unfold sttConfigured at hc
  rw [Bool.and_eq_true] at hc
  unfold call_stt_api
  rw [hc.1, hc.2]
  simp [hs]

lemma call_llm_api_config_missing (secrets : Secrets) (net : Net) (userText : Json)
    (h : llmConfigured secrets = false) :
    call_llm_api secrets net userText =
      { msgs := [.info "Sending text to LLM...",
                 .error "LLM endpoint/key not configured. Check .streamlit/secrets.toml."]
        reqs := []
        result := .str "" } := by
  have hcond : (!truthyS (secrets.get secretEndpointKey)
      || !truthyS (secrets.get secretCredentialKey)) = true := by
    rw [← Bool.not_and]
    unfold llmConfigured at h
    rw [h]
    rfl
  unfold call_llm_api
  rw [hcond]
  simp

lemma call_llm_api_ok (secrets : Secrets) (net : Net) (userText : Json)
    (hc : llmConfigured secrets = true)
    (hs : (net (llmReq secrets userText)).status = 200) :
    call_llm_api secrets net userText =
      { msgs := [.info "Sending text to LLM..."]
        reqs := [llmReq secrets userText]
        result := llmExtract (net (llmReq secrets userText)).json } := by
  unfold llmConfigured at hc
  rw [Bool.and_eq_true] at hc
  unfold call_llm_api
  rw [hc.1, hc.2]
  simp [hs]

lemma call_tts_api_ok (secrets : Secrets) (net : Net) (reply : Json)
    (hc : ttsConfigured secrets = true)
    (hs : (net (ttsReq secrets reply)).status = 200) :
    call_tts_api secrets net reply =
      { msgs := [.info "Requesting TTS audio..."]
        reqs := [ttsReq secrets reply]
        result := some (net (ttsReq secrets reply)).content } := by
  unfold ttsConfigured at hc
  rw [Bool.and_eq_true] at hc
  unfold call_tts_api
  rw [hc.1, hc.2]
  simp [hs]

/-- The empty-result error message differs from every remote-call error
message of the STT stage: the two error classes are reported by distinct
texts. -/
lemma sttApiError_ne_noTranscript (s : String) :
    "STT API error: " ++ s ≠ "No transcription returned." := by
  intro h
  have h2 := congrArg String.data h
  rw [String.data_append] at h2
  simp at h2

/-- Claim C1: for every valid audio input and a fully-configured set of
endpoints, a run in which all three stage calls succeed (status 200 and a
truthy extraction at each text stage) ends in Done, and the final
synthesized-audio artifact handed to playback is byte-for-byte the
response body returned by the Synthesize call, with no parsing or
transformation. -/
theorem c1_success_run (secrets : Secrets) (net : Net) (audio : List Nat)
    (hc : fullyConfigured secrets = true)
    (h1 : (sttRespOf secrets net audio).status = 200)
    (h2 : (transcriptOf secrets net audio).truthy = true)
    (h3 : (llmRespOf secrets net audio).status = 200)
    (h4 : (replyOf secrets net audio).truthy = true)
    (h5 : (ttsRespOf secrets net audio).status = 200) :
    (processButton secrets net (some audio)).state = .Done ∧
    (processButton secrets net (some audio)).artifact = some (ttsRespOf secrets net audio).content := by
  unfold fullyConfigured at hc
  rw [Bool.and_eq_true, Bool.and_eq_true] at hc
  obtain ⟨⟨hcs, hcl⟩, hct⟩ := hc
  unfold sttRespOf at h1
  unfold transcriptOf sttRespOf at h2
  unfold llmRespOf transcriptOf sttRespOf at h3
  unfold replyOf llmRespOf transcriptOf sttRespOf at h4
  unfold ttsRespOf replyOf llmRespOf transcriptOf sttRespOf at h5
  have e1 := call_stt_api_ok secrets net audio hcs h1
  have e2 := call_llm_api_ok secrets net _ hcl h3
  have e3 := call_tts_api_ok secrets net _ hct h5
  simp [processButton, e1, e2, e3, h2, h4, ttsRespOf, replyOf, llmRespOf, transcriptOf, sttRespOf]

/-- Witness for claim C1: under the example store and the all-success
oracle, a run on concrete audio ends Done with the TTS response bytes as
its artifact. -/
theorem c1_success_run_witness :
    (processButton sOK netOK (some [1])).state = .Done ∧
    (processButton sOK netOK (some [1])).artifact = some (ttsRespOf sOK netOK [1]).content :=
  c1_success_run sOK netOK [1] (by decide) rfl rfl rfl rfl rfl

/-- Claim C2: for every stage, if the configuration entries that stage
consults are absent or empty, a run issues no HTTP request at all (in
particular none for that stage or any later one), halts in Aborted, and a
configuration-error cause is reported to the user.  All three stage
functions consult the same two secrets entries, so the run always aborts
at the STT configuration check with its configuration-error message. -/
theorem c2_config_missing (stg : Stage) (secrets : Secrets) (net : Net) (audio : List Nat)
    (h : stageConfigured stg secrets = false) :
    (processButton secrets net (some audio)).reqs = [] ∧
    (processButton secrets net (some audio)).state = .Aborted ∧
    UiMsg.error "STT endpoint/key not configured. Check .streamlit/secrets.toml."
      ∈ (processButton secrets net (some audio)).msgs := by
  have hstt : sttConfigured secrets = false := by cases stg <;> exact h
  have e1 := call_stt_api_config_missing secrets net audio hstt
  simp [processButton, e1, Json.truthy]

/-- Witness for claim C2: with an empty secrets store and the LLM stage as
the unconfigured stage, a run issues no request, aborts and reports the
configuration error. -/
theorem c2_config_missing_witness :
    (processButton [] netOK (some [1])).reqs = [] ∧
    (processButton [] netOK (some [1])).state = .Aborted ∧
    UiMsg.error "STT endpoint/key not configured. Check .streamlit/secrets.toml."
      ∈ (processButton [] netOK (some [1])).msgs :=
  c2_config_missing .llm [] netOK [1] rfl

/-- Claim C3: if the Transcribe call returns any non-success status (500
included), the run makes exactly one HTTP call in total, halts in Aborted,
and the Generate and Synthesize stages are never invoked (the request list
of the whole run is exactly the single STT request). -/
theorem c3_stt_failure_single_call (secrets : Secrets) (net : Net) (audio : List Nat)
    (hc : sttConfigured secrets = true)
    (hs : (sttRespOf secrets net audio).status ≠ 200) :
    (processButton secrets net (some audio)).state = .Aborted ∧
    (processButton secrets net (some audio)).reqs = [sttReq secrets audio] := by
  unfold sttRespOf at hs
  have e1 := call_stt_api_http_error secrets net audio hc hs
  simp [processButton, e1, Json.truthy]

/-- Witness for claim C3: under an oracle answering 500, the concrete run
aborts after exactly the one STT request. -/
theorem c3_stt_failure_single_call_witness :
    (processButton sOK net500 (some [1])).state = .Aborted ∧
    (processButton sOK net500 (some [1])).reqs = [sttReq sOK [1]] :=
  c3_stt_failure_single_call sOK net500 [1] (by decide) (by decide)

/-- Claim C4, counterexample: the claim says the earliest present field
among text, transcript, result wins, so on the response binding text to
the empty string and transcript to hello it would return the empty
string; the code skips the empty text field and returns hello.  The code
therefore differs from the claim formalisation at this input. -/
theorem c4_counterexample :
    sttExtract (Json.obj [("text", .str ""), ("transcript", .str "hello")]) ≠
    sttExtractClaim (Json.obj [("text", .str ""), ("transcript", .str "hello")]) := by
  simp [sttExtract, sttExtractClaim, Json.getD, Json.lookup, pyOr, Json.truthy]

/-- Claim C4, amended: transcript extraction returns the first truthy
(present and non-empty) value among the fields text, transcript, result in
that fixed priority order, and the empty string when none is truthy;
fields bound to empty values are skipped rather than returned.  In
particular the response binding transcript to hello yields hello. -/
theorem c4_first_truthy_field_wins :
    (∀ data : Json, sttExtract data = firstTruthy sttFields data) ∧
    sttExtract (Json.obj [("transcript", .str "hello")]) = .str "hello" :=
  ⟨fun _ => rfl, rfl⟩

/-- Claim C5, counterexample: the claim says that when the choices
extraction yields no value the extraction falls back to the flat response
and text fields, so on the response with a choices list holding one empty
object and a response field ok it would return ok; the code commits to the
structured branch and returns the empty string.  The code therefore
differs from the claim formalisation at this input. -/
theorem c5_counterexample :
    llmExtract (Json.obj [("choices", .arr [.obj []]), ("response", .str "ok")]) ≠
    llmExtractClaim (Json.obj [("choices", .arr [.obj []]), ("response", .str "ok")]) := by
  simp [llmExtract, llmExtractClaim, Json.getD, Json.lookup, pyOr, Json.truthy]

/-- Claim C5, amended: reply extraction takes the structured branch
exactly when choices is present and non-empty, returning choices[0].text
when truthy and otherwise choices[0].message.content (possibly the empty
string, with no further fallback); the flat response-then-text fallback
applies only when choices is absent (or, per claim C10, an empty list).
The two concrete examples of the claim hold as stated. -/
theorem c5_reply_extraction :
    llmExtract (Json.obj [("choices",
        .arr [.obj [("message", .obj [("content", .str "hi there")])]])]) = .str "hi there" ∧
    llmExtract (Json.obj [("response", .str "ok")]) = .str "ok" ∧
    (∀ data : Json, data.lookup "choices" = none → llmExtract data = flatExtract data) ∧
    (∀ (data c : Json) (cs : List Json),
        data.lookup "choices" = some (.arr (c :: cs)) → llmExtract data = choiceExtract c) := by
  refine ⟨rfl, rfl, ?_, ?_⟩
  · intro data h
    simp [llmExtract, flatExtract, h]
  · intro data c cs h
    simp [llmExtract, choiceExtract, h]

/-- Witness for the amended claim C5 at concrete responses: an absent
choices key falls back to the flat fields, and a non-empty choices list
commits to the structured extraction. -/
theorem c5_reply_extraction_witness :
    llmExtract (Json.obj [("response", .str "ok")]) = flatExtract (Json.obj [("response", .str "ok")]) ∧
    llmExtract (Json.obj [("choices", .arr [.obj [("text", .str "a")]])]) =
      choiceExtract (.obj [("text", .str "a")]) :=
  ⟨c5_reply_extraction.2.2.1 _ rfl,
   c5_reply_extraction.2.2.2 _ _ _ rfl⟩

/-- Claim C6: if the Transcribe call succeeds with status 200 but every
recognized transcript field is empty or absent, the run halts in Aborted
after the single STT request, the Generate stage is never invoked, and the
empty-result cause is reported by a message distinct from every remote-call
error message (the message list is exactly the progress note followed by
the no-transcription error, and contains no STT API error message). -/
theorem c6_empty_transcript (secrets : Secrets) (net : Net) (audio : List Nat)
    (hc : sttConfigured secrets = true)
    (hs : (sttRespOf secrets net audio).status = 200)
    (he : (transcriptOf secrets net audio).truthy = false) :
    (processButton secrets net (some audio)).state = .Aborted ∧
    (processButton secrets net (some audio)).reqs = [sttReq secrets audio] ∧
    (processButton secrets net (some audio)).msgs =
      [.info "Sending audio to STT API...", .error "No transcription returned."] ∧
    (∀ s : String, UiMsg.error ("STT API error: " ++ s) ∉ (processButton secrets net (some audio)).msgs) := by
  unfold transcriptOf sttRespOf at he
  unfold sttRespOf at hs
  have e1 := call_stt_api_ok secrets net audio hc hs
  refine ⟨?_, ?_, ?_, ?_⟩ <;> simp [processButton, e1, he]
  intro s hmem
  exact sttApiError_ne_noTranscript s hmem

/-- Witness for claim C6: under an oracle answering 200 with an empty JSON
object, the concrete run aborts after one request and reports exactly the
empty-result message. -/
theorem c6_empty_transcript_witness :
    (processButton sOK netEmpty (some [1])).state = .Aborted ∧
    (processButton sOK netEmpty (some [1])).reqs = [sttReq sOK [1]] ∧
    (processButton sOK netEmpty (some [1])).msgs =
      [.info "Sending audio to STT API...", .error "No transcription returned."] :=
  ⟨(c6_empty_transcript sOK netEmpty [1] (by decide) rfl rfl).1,
   (c6_empty_transcript sOK netEmpty [1] (by decide) rfl rfl).2.1,
   (c6_empty_transcript sOK netEmpty [1] (by decide) rfl rfl).2.2.1⟩

/-- Claim C7: each stage is deterministic in its input and the static
configuration: two invocations of the same stage in two worlds that agree
on the secrets store and on the network oracle produce identical outputs
(messages, requests and result), whatever the rest of the worlds (page
state, diagnostic toggle) looks like. -/
theorem c7_stage_determinism (w w' : World)
    (hs : w.secrets = w'.secrets) (hn : w.net = w'.net) :
    (∀ audio, sttStage w audio = sttStage w' audio) ∧
    (∀ userText, llmStage w userText = llmStage w' userText) ∧
    (∀ reply, ttsStage w reply = ttsStage w' reply) := by
  refine ⟨?_, ?_, ?_⟩ <;> intro x <;> simp [sttStage, llmStage, ttsStage, hs, hn]

/-- Witness for claim C7: two concrete worlds differing in page state and
diagnostic toggle but agreeing on secrets and network give the same
Transcribe output on the same audio. -/
theorem c7_stage_determinism_witness :
    sttStage ⟨sOK, netOK, ⟨none, none⟩, false⟩ [3] =
    sttStage ⟨sOK, netOK, ⟨some [1], some [2]⟩, true⟩ [3] :=
  (c7_stage_determinism ⟨sOK, netOK, ⟨none, none⟩, false⟩
    ⟨sOK, netOK, ⟨some [1], some [2]⟩, true⟩ rfl rfl).1 [3]

/-- Claim C8: evaluation at the failing input.  The diagnostic checkbox
reports the truthiness of the entries STT_ENDPOINT, LLM_ENDPOINT and
TTS_ENDPOINT, while every stage function consults two different literal
keys: under a store holding exactly the three checkbox entries the
diagnostic reports all three stages configured, yet every stage
configuration check fails and a run issues no request and aborts; under
the store the stage checks accept, the diagnostic reports nothing
configured. -/
theorem c8_diag_mismatch :
    showConfiguredAPIs sDiag = (true, true, true) ∧
    sttConfigured sDiag = false ∧
    llmConfigured sDiag = false ∧
    ttsConfigured sDiag = false ∧
    (processButton sDiag netOK (some [1])).state = .Aborted ∧
    (processButton sDiag netOK (some [1])).reqs = [] ∧
    showConfiguredAPIs sOK = (false, false, false) ∧
    fullyConfigured sOK = true :=
  ⟨rfl, rfl, rfl, rfl, rfl, rfl, rfl, rfl⟩

/-- Claim C9: pressing the process button with no uploaded file issues no
HTTP request and invokes no stage, only a warning is shown and the run
ends immediately; and the handler consumes only the uploaded file, so the
audio held by the in-page recorder never influences the run. -/
theorem c9_no_upload_no_requests (secrets : Secrets) (net : Net) :
    (∀ rec, processClick secrets net ⟨rec, none⟩ =
      { state := .Idle
        msgs := [.warning "No audio available. Use the recorder (top) or upload a file."]
        reqs := []
        artifact := none }) ∧
    (∀ rec rec' up, processClick secrets net ⟨rec, up⟩ = processClick secrets net ⟨rec', up⟩) :=
  ⟨fun _ => rfl, fun _ _ _ => rfl⟩

/-- Claim C10: a choices key bound to an empty list is treated exactly
like an absent choices key: extraction falls through to the flat response
and text fields; the structured branch is taken only when choices is
present and non-empty, in which case its extraction is final. -/
theorem c10_empty_choices_falls_through :
    (∀ data : Json, data.lookup "choices" = some (.arr []) → llmExtract data = flatExtract data) ∧
    (∀ (data c : Json) (cs : List Json),
        data.lookup "choices" = some (.arr (c :: cs)) → llmExtract data = choiceExtract c) := by
  constructor
  · intro data h
    simp [llmExtract, flatExtract, h]
  · intro data c cs h
    simp [llmExtract, choiceExtract, h]

/-- Witness for claim C10 at concrete responses: an empty choices list
falls through to the flat fields, a non-empty one commits to the
structured extraction. -/
theorem c10_empty_choices_falls_through_witness :
    llmExtract (Json.obj [("choices", .arr []), ("response", .str "fallback")]) =
      flatExtract (Json.obj [("choices", .arr []), ("response", .str "fallback")]) ∧
    llmExtract (Json.obj [("choices", .arr [.obj [("text", .str "b")]]), ("response", .str "x")]) =
      choiceExtract (.obj [("text", .str "b")]) :=
  ⟨c10_empty_choices_falls_through.1 _ rfl,
   c10_empty_choices_falls_through.2 _ _ _ rfl⟩

end VoiceApp
